import Mathlib

/-
Verification development for the Portfolio-AI-Server RAG engine.

The repository contains four variants of the same Express server:
  - src/server.js          (referred to below as namespace SrvJs)
  - src/unnamed/part_000   (namespace P000)
  - src/unnamed/part_001   (namespace P001)
  - src/unnamed/part_002   (namespace P002)

Each namespace holds a shallow embedding of the relevant handlers of that
variant.  JavaScript numbers are modelled as exact rationals; the real-valued
cosine-similarity quotient (which involves square roots) is modelled as a
graph relation into the reals; the non-finite outcome of a JavaScript
division by zero is modelled by the JSNum type.  External gateways
(embedding and completion calls) are suspension points whose results are
supplied as explicit parameters.  The file is organised as definitions
first, then theorems.
-/

namespace Raven

/-- Role of a conversation turn, as used in the messages array of server.js. -/
inductive Role where
  | user
  | assistant
  deriving DecidableEq

/-- A conversation turn: one element of the per-session history in server.js
(objects of shape role/content pushed at lines 168-169). -/
structure Turn where
  role : Role
  content : String
  deriving DecidableEq

/-- A knowledge-store entry, the object pushed by the server.js ingest handler
(lines 247-252): id, text, embedding vector, createdAt, and the optional
updatedAt written by the update handler. -/
structure KEntry where
  id : String
  text : String
  embedding : List ℚ
  createdAt : String
  updatedAt : Option String
  deriving DecidableEq

/-- A scored retrieval chunk: the object built per store entry before sorting
(text and score in server.js lines 134-143; id, text and score in part_000
lines 46-50).  The field idx records the position of the chunk in the store,
which is implicit in the construction order of the similarities array; it is
carried here to state the stability of the sort. -/
structure ScoredChunk where
  idx : Nat
  text : String
  score : ℚ
  deriving DecidableEq

/-- Body of a JSON error response: the error string, and the optional details
field that only the part_002 catch block emits. -/
structure ErrBody where
  error : String
  details : Option String
  deriving DecidableEq

/-- Result of one request: a success body or an error status with body. -/
inductive Outcome where
  | success (answer : String)
  | error (status : Nat) (body : ErrBody)
  deriving DecidableEq

/-- A JavaScript exception as observed by the catch blocks: its optional
numeric status, its message, and its JSON serialization. -/
structure JsError where
  status : Option Nat
  message : String
  serialized : String

/-- Result of an awaited gateway call: a value, or a thrown exception. -/
inductive GRes (α : Type) where
  | ok (a : α)
  | err (e : JsError)

/-- Map over a successful gateway result. -/
def GRes.map (f : α → β) : GRes α → GRes β
  | .ok a => .ok (f a)
  | .err e => .err e

/-- State of the durable snapshot file vector-database.json at startup. -/
inductive SnapshotState where
  | missing
  | malformed
  | parsed (entries : List KEntry)

/-- Result of running a startup sequence: the process keeps running with a
store, or exits with a code. -/
inductive StartupResult where
  | running (db : List KEntry)
  | exited (code : Nat)
  deriving DecidableEq

/-- JavaScript slice with a negative start: history.slice(-k) keeps the last
k elements (all of them when the list is shorter than k). -/
def jsSliceLast (k : Nat) (l : List α) : List α :=
  l.drop (l.length - k)

/-- A history that consists of complete (user, assistant) pairs: it
alternates roles starting with a user turn and ending with an assistant
turn, and in particular has even length. -/
inductive Alternates : List Turn → Prop where
  | nil : Alternates []
  | pair (u a : String) (rest : List Turn) :
      Alternates rest → Alternates (⟨.user, u⟩ :: ⟨.assistant, a⟩ :: rest)

/-- Stable insertion of a chunk into a list sorted non-increasingly by score:
the new chunk goes after every already-present chunk whose score is greater
than or equal to its own.  Together with sortByScoreDesc this models the
ECMAScript stable Array.prototype.sort with the comparator
(a, b) => b.score - a.score used by every variant. -/
def insertDesc (x : ScoredChunk) : List ScoredChunk → List ScoredChunk
  | [] => [x]
  | y :: ys => if y.score < x.score then x :: y :: ys else y :: insertDesc x ys

/-- Stable sort of the similarities array, non-increasing by score: models
similarities.sort((a, b) => b.score - a.score) in part_000 line 52, part_002
line 64, server.js line 144 and part_001 line 139. -/
def sortByScoreDesc (l : List ScoredChunk) : List ScoredChunk :=
  l.foldl (fun acc x => insertDesc x acc) []

/-- Top three ranked chunks: similarities.slice(0, 3) after the sort
(part_000 line 53, part_002 line 65, server.js line 145). -/
def top3Chunks (sims : List ScoredChunk) : List ScoredChunk :=
  (sortByScoreDesc sims).take 3

namespace SrvJs

/-- Fixed cap on the per-session history, server.js line 22. -/
def MAX_MEMORY_MESSAGES : Nat := 6

/-- One completed chat turn appends the user turn and the assistant reply and
then truncates to the most recent MAX_MEMORY_MESSAGES entries, server.js
lines 168-173. -/
def memUpdate (history : List Turn) (q reply : String) : List Turn :=
  jsSliceLast MAX_MEMORY_MESSAGES (history ++ [⟨.user, q⟩, ⟨.assistant, reply⟩])

/-- Full transcript of a sequence of completed (question, reply) turns,
before any truncation. -/
def transcript : List (String × String) → List Turn
  | [] => []
  | (q, r) :: ts => ⟨.user, q⟩ :: ⟨.assistant, r⟩ :: transcript ts

/-- Stored history after a sequence of sequentially completed chat turns in
one session, starting from the empty history of a fresh session. -/
def runTurns (turns : List (String × String)) : List Turn :=
  turns.foldl (fun h p => memUpdate h p.1 p.2) []

end SrvJs

/-- Routing mode in the sense of the Relevance Router section of the spec:
GROUNDED injects retrieved context into the outbound prompt, GENERAL does
not. -/
inductive Mode where
  | GROUNDED
  | GENERAL
  deriving DecidableEq

/-- Result of an ingest request: the Saved response carrying totalEntries,
or a failed status with an error string. -/
inductive IngestResult where
  | saved (totalEntries : Nat)
  | failed (status : Nat) (error : String)
  deriving DecidableEq

namespace SrvJs

/-- System-message persona of server.js (lines 154-157): the persona
instruction followed by a blank line, to which the retrieved context is
appended with no threshold check. -/
def personaMsg : String :=
  "You are Raven, an AI assistant for Adil Hasan’s portfolio. Use the provided context only if relevant.\n\n"

/-- Context string assembled by the server.js chat handler (lines 134-147):
the top three ranked chunk texts joined by a blank line. -/
def contextText (scored : List ScoredChunk) : String :=
  String.intercalate "\n\n" ((top3Chunks scored).map ScoredChunk.text)

/-- Configuration switches from section 5 of server.js: whether the
OpenRouter completion client and the Gemini embedding model were initialised
(each stays null when its API key is absent). -/
structure Config where
  openaiConfigured : Bool
  embConfigured : Bool

/-- Chat handler of server.js (lines 112-181).  The two awaited gateway
calls are suspension points whose results are parameters: embedScores is the
scored store derived from the embedding-gateway vector (an err value models
a call that throws, routed to the catch block), and complete is the
completion gateway, receiving the assembled system message, the prior
history and the user turn.  Returns the response outcome together with the
stored session history after the request. -/
def chatStep (cfg : Config) (question : Option String) (db : List KEntry)
    (embedScores : GRes (List ScoredChunk))
    (complete : String → List Turn → String → GRes String)
    (history : List Turn) : Outcome × List Turn :=
  if cfg.openaiConfigured = false then
    (.error 500 ⟨"AI not initialized", none⟩, history)
  else
    match question with
    | none => (.error 400 ⟨"Missing question", none⟩, history)
    | some q =>
      if q = "" then (.error 400 ⟨"Missing question", none⟩, history)
      else
        match (if cfg.embConfigured = true ∧ 0 < db.length
               then embedScores.map contextText else .ok "") with
        | .err _ => (.error 500 ⟨"AI service error", none⟩, history)
        | .ok context =>
          match complete (personaMsg ++ context) history q with
          | .err _ => (.error 500 ⟨"AI service error", none⟩, history)
          | .ok reply => (.success reply, memUpdate history q reply)

/-- Ingest handler of server.js (lines 241-260), past the admin-session
check, with the embedding-gateway vector, the generated id and the timestamp
supplied as parameters.  The entry is appended unconditionally — there is no
dimensionality comparison against existing entries — and the store is
persisted. -/
def ingest (db : List KEntry) (text : String) (embedding : List ℚ)
    (freshId : String) (now : String) : List KEntry × IngestResult :=
  if text = "" then (db, .failed 400 "Missing text")
  else
    (db ++ [⟨freshId, text, embedding, now, none⟩], .saved (db.length + 1))

/-- Database load of server.js (lines 97-107): a missing file leaves the
initial empty array, malformed content throws inside the try and is caught,
leaving the initial empty array; the process continues in both cases. -/
def loadDb : SnapshotState → List KEntry
  | .missing => []
  | .malformed => []
  | .parsed es => es

end SrvJs

namespace P002

/-- Separator used by part_002 when joining the top three chunk texts,
line 81. -/
def contextSep : String := "\n\n---\n\n"

/-- Context string of part_002 (line 81): the top three chunk texts joined
by a blank line, three dashes and a blank line. -/
def contextText (scored : List ScoredChunk) : String :=
  String.intercalate contextSep ((top3Chunks scored).map ScoredChunk.text)

/-- Routing decision of the part_002 threshold branch (line 86):
topScore > 0.45 selects the grounded instruction, otherwise the general
one. -/
def mode (topScore : ℚ) : Mode :=
  if 0.45 < topScore then .GROUNDED else .GENERAL

/-- Grounded system instruction of part_002 (lines 88-94), with the context
interpolated. -/
def groundedInstr (context : String) : String :=
  "\n        You are Raven, an AI assistant for Adil Hasan\x27s portfolio.\n        Answer the user\x27s question using the CONTEXT provided below.\n        \n        CONTEXT FROM DATABASE:\n        "
    ++ context ++ "\n      "

/-- General system instruction of part_002 (lines 97-101); it carries no
retrieved context. -/
def generalInstr : String :=
  "\n        You are Raven, an AI assistant for Adil Hasan.\n        The user asked a question unrelated to Adil\x27s portfolio details.\n        Answer politely and helpfully.\n      "

/-- System instruction chosen by the threshold branch of part_002
(lines 85-102). -/
def systemInstruction (topScore : ℚ) (context : String) : String :=
  match mode topScore with
  | .GROUNDED => groundedInstr context
  | .GENERAL => generalInstr

/-- Catch block of the part_002 chat handler (lines 117-134): statuses 401
and 429 map to fixed messages; every other exception leaks the exception
message inside the error string and the serialized exception object in a
details field. -/
def catchResponse (e : JsError) : Outcome :=
  match e.status with
  | some 401 => .error 500 ⟨"Auth Error: API Key is invalid or expired.", none⟩
  | some 429 => .error 500 ⟨"Billing Error: No credits or rate limit exceeded.", none⟩
  | _ => .error 500
      ⟨"Server Error: " ++ (if e.message = "" then "Unknown Error" else e.message),
       some e.serialized⟩

/-- Chat handler of part_002 (lines 69-135).  The embedding call inside
findRelevantChunks and the completion call are parameters; an err value
models a gateway call that throws, routed to the catch block.  The
expression for topScore models top3Chunks[0]?.score || 0 (line 82). -/
def chatStep (question : Option String) (db : List KEntry)
    (embedScores : GRes (List ScoredChunk))
    (complete : String → String → GRes String) : Outcome :=
  match question with
  | none => .error 400 ⟨"No question provided", none⟩
  | some q =>
    if q = "" then .error 400 ⟨"No question provided", none⟩
    else if db.length = 0 then .error 503 ⟨"Brain is loading, please wait...", none⟩
    else
      match embedScores with
      | .err e => catchResponse e
      | .ok scored =>
        let top3 := top3Chunks scored
        let context := String.intercalate contextSep (top3.map ScoredChunk.text)
        let topScore := (top3.head?.map ScoredChunk.score).getD 0
        match complete (systemInstruction topScore context) q with
        | .err e => catchResponse e
        | .ok answer => .success answer

/-- Startup database load of part_002 (lines 141-153): a failure of
readFileSync or JSON.parse is logged and the server keeps running with the
empty store. -/
def loadDb : SnapshotState → StartupResult
  | .missing => .running []
  | .malformed => .running []
  | .parsed es => .running es

end P002

namespace P000

/-- Startup database load of part_000 (lines 107-122): any failure of the
readFileSync or JSON.parse calls (missing file or malformed content) hits
the catch block, which calls process.exit(1), aborting startup. -/
def loadDb : SnapshotState → StartupResult
  | .missing => .exited 1
  | .malformed => .exited 1
  | .parsed es => .running es

end P000

namespace SrvJs

end SrvJs

/- ------------------------------------------------------------------ -/
/- Theorems.                                                           -/
/- ------------------------------------------------------------------ -/

theorem jsSliceLast_length_le (k : Nat) (l : List α) :
    (jsSliceLast k l).length ≤ k := by
  simp only [jsSliceLast, List.length_drop]
  omega

theorem jsSliceLast_nil (k : Nat) : jsSliceLast k ([] : List α) = [] := by
  simp [jsSliceLast]

/-- Taking the last k of a list whose front was already truncated to its last
k elements, after appending more elements, is the same as taking the last k
of the untruncated list with the same elements appended. -/
theorem jsSliceLast_append_jsSliceLast (k : Nat) (l m : List α) :
    jsSliceLast k (jsSliceLast k l ++ m) = jsSliceLast k (l ++ m) := by
  simp only [jsSliceLast, List.drop_append_eq_append_drop, List.length_append,
    List.length_drop, List.drop_drop]
  have h1 : l.length - k + ((l.length - (l.length - k) + m.length) - k)
      = l.length + m.length - k := by omega
  have h2 : (l.length - (l.length - k) + m.length) - k - (l.length - (l.length - k))
      = l.length + m.length - k - l.length := by omega
  rw [h1, h2]

theorem SrvJs.transcript_length (ts : List (String × String)) :
    (SrvJs.transcript ts).length = 2 * ts.length := by
  induction ts with
  | nil => rfl
  | cons p ts ih => simp [SrvJs.transcript, ih]; omega

theorem SrvJs.foldl_memUpdate_from (ts : List (String × String)) :
    ∀ h : List Turn,
      ts.foldl (fun h p => SrvJs.memUpdate h p.1 p.2)
          (jsSliceLast SrvJs.MAX_MEMORY_MESSAGES h)
        = jsSliceLast SrvJs.MAX_MEMORY_MESSAGES (h ++ SrvJs.transcript ts) := by
  induction ts with
  | nil => intro h; simp [SrvJs.transcript]
  | cons p ts ih =>
    intro h
    have hstep : SrvJs.memUpdate (jsSliceLast SrvJs.MAX_MEMORY_MESSAGES h) p.1 p.2
        = jsSliceLast SrvJs.MAX_MEMORY_MESSAGES
            (h ++ [⟨.user, p.1⟩, ⟨.assistant, p.2⟩]) := by
      simp only [SrvJs.memUpdate]
      exact jsSliceLast_append_jsSliceLast _ h _
    simp only [List.foldl_cons, hstep, ih (h ++ [⟨.user, p.1⟩, ⟨.assistant, p.2⟩])]
    simp [SrvJs.transcript, List.append_assoc]

/-- The stored history is always exactly the last MAX_MEMORY_MESSAGES turns
of the full transcript. -/
theorem SrvJs.runTurns_eq_jsSliceLast (ts : List (String × String)) :
    SrvJs.runTurns ts = jsSliceLast SrvJs.MAX_MEMORY_MESSAGES (SrvJs.transcript ts) := by
  have h := SrvJs.foldl_memUpdate_from ts []
  simpa [SrvJs.runTurns, jsSliceLast] using h

/-- C4: for every session and every sequence of completed chat turns, the
stored conversation history has length at most W = MAX_MEMORY_MESSAGES = 6
(an even number) after each write, and it always equals the most recent W
turns of the full transcript, so truncation discards the oldest turns
first. -/
theorem c4_theorem (turns : List (String × String)) :
    (SrvJs.runTurns turns).length ≤ SrvJs.MAX_MEMORY_MESSAGES
    ∧ SrvJs.runTurns turns
        = jsSliceLast SrvJs.MAX_MEMORY_MESSAGES (SrvJs.transcript turns)
    ∧ SrvJs.MAX_MEMORY_MESSAGES % 2 = 0 := by
  refine ⟨?_, SrvJs.runTurns_eq_jsSliceLast turns, rfl⟩
  rw [SrvJs.runTurns_eq_jsSliceLast turns]
  exact jsSliceLast_length_le _ _

theorem Alternates.length_even {l : List Turn} (h : Alternates l) :
    l.length % 2 = 0 := by
  induction h with
  | nil => rfl
  | pair u a rest _ ih => simp [List.length_cons]; omega

theorem Alternates.drop_two {l : List Turn} (h : Alternates l) :
    Alternates (l.drop 2) := by
  cases h with
  | nil => exact .nil
  | pair u a rest hrest => simpa using hrest

theorem Alternates.drop_even {l : List Turn} (h : Alternates l) :
    ∀ m : Nat, Alternates (l.drop (2 * m)) := by
  intro m
  induction m generalizing l with
  | zero => simpa using h
  | succ n ih =>
    have h2 : Alternates (l.drop 2) := h.drop_two
    have := ih h2
    rw [List.drop_drop] at this
    have harith : 2 + 2 * n = 2 * (n + 1) := by omega
    rwa [harith] at this

theorem Alternates.getLast?_assistant {l : List Turn} (h : Alternates l)
    (hne : l ≠ []) : l.getLast?.map Turn.role = some Role.assistant := by
  induction h with
  | nil => exact absurd rfl hne
  | pair u a rest hrest ih =>
    cases rest with
    | nil => rfl
    | cons t ts =>
      rw [List.getLast?_cons_cons, List.getLast?_cons_cons]
      exact ih (by simp)

theorem alternates_transcript (ts : List (String × String)) :
    Alternates (SrvJs.transcript ts) := by
  induction ts with
  | nil => exact .nil
  | cons p ts ih => exact .pair p.1 p.2 _ ih

theorem alternates_jsSliceLast {l : List Turn} (h : Alternates l) (k : Nat)
    (hk : k % 2 = 0) : Alternates (jsSliceLast k l) := by
  have hlen : l.length % 2 = 0 := h.length_even
  have hex : ∃ m, l.length - k = 2 * m := by
    refine ⟨(l.length - k) / 2, ?_⟩
    omega
  obtain ⟨m, hm⟩ := hex
  rw [jsSliceLast, hm]
  exact h.drop_even m

/-- C10: after any sequence of sequentially completed chat requests, the
stored history consists of complete (user, assistant) pairs — it alternates
roles starting with a user turn, has even length, and (when at least one
turn completed) ends with an assistant turn — because turns are appended in
pairs and the even cap W = 6 makes the front truncation cut at a pair
boundary. -/
theorem c10_theorem (turns : List (String × String)) :
    Alternates (SrvJs.runTurns turns)
    ∧ (SrvJs.runTurns turns).length % 2 = 0
    ∧ (turns ≠ [] →
        (SrvJs.runTurns turns).getLast?.map Turn.role = some Role.assistant) := by
  have halt : Alternates (SrvJs.runTurns turns) := by
    rw [SrvJs.runTurns_eq_jsSliceLast]
    exact alternates_jsSliceLast (alternates_transcript turns) _ rfl
  refine ⟨halt, halt.length_even, ?_⟩
  intro hne
  refine halt.getLast?_assistant ?_
  rw [SrvJs.runTurns_eq_jsSliceLast]
  cases turns with
  | nil => exact absurd rfl hne
  | cons p ts =>
    have hlen : (SrvJs.transcript (p :: ts)).length = 2 * (p :: ts).length :=
      SrvJs.transcript_length _
    intro hcontra
    have hzero : (jsSliceLast SrvJs.MAX_MEMORY_MESSAGES
        (SrvJs.transcript (p :: ts))).length = 0 := by
      rw [hcontra]; rfl
    rw [jsSliceLast, List.length_drop, hlen] at hzero
    simp [SrvJs.MAX_MEMORY_MESSAGES] at hzero
    omega

/-- Witness for C10 at the concrete one-turn session. -/
theorem c10_witness :
    Alternates (SrvJs.runTurns [("hi", "there")])
    ∧ (SrvJs.runTurns [("hi", "there")]).length % 2 = 0
    ∧ (SrvJs.runTurns [("hi", "there")]).getLast?.map Turn.role
        = some Role.assistant := by
  obtain ⟨h1, h2, h3⟩ := c10_theorem [("hi", "there")]
  exact ⟨h1, h2, h3 (by simp)⟩

/-- C1 counterexample: server.js applies no threshold.  With a single ranked
chunk of score 1/10 — not exceeding the threshold T = 0.45, so the claim
requires GENERAL mode with empty context — the server.js chat handler still
injects the chunk text into the outbound system message (the completion
oracle here echoes the system message it received), refuting the claimed
if-and-only-if routing. -/
theorem c1_counterexample :
    (SrvJs.chatStep ⟨true, true⟩ (some "q") [⟨"e1", "A", [1], "t0", none⟩]
        (.ok [⟨0, "A", 1/10⟩]) (fun sys _ _ => .ok sys) []).1
      = .success (SrvJs.personaMsg ++ "A")
    ∧ ¬ (0.45 : ℚ) < 1/10 := by
  constructor
  · rfl
  · norm_num

/-- C1 amended: in the part_002 handler (threshold 0.45) the mode is GROUNDED
if and only if the top score strictly exceeds 0.45, and a top score exactly
equal to 0.45 selects GENERAL, whose instruction carries no retrieved
context; the grounded context joins the top-3 chunk texts in ranked order
with the separator of a blank line, three dashes and a blank line (not a
bare blank line).  The server.js handler applies no threshold: its context,
joined by a blank line, is injected whenever retrieval ran. -/
theorem c1_amended_theorem (t : ℚ) (ctx : String) (scored : List ScoredChunk) :
    (P002.mode t = Mode.GROUNDED ↔ 0.45 < t)
    ∧ P002.mode 0.45 = Mode.GENERAL
    ∧ (0.45 < t → P002.systemInstruction t ctx = P002.groundedInstr ctx)
    ∧ (t ≤ 0.45 → P002.systemInstruction t ctx = P002.generalInstr)
    ∧ P002.contextText scored
        = String.intercalate "\n\n---\n\n" ((top3Chunks scored).map ScoredChunk.text)
    ∧ SrvJs.contextText scored
        = String.intercalate "\n\n" ((top3Chunks scored).map ScoredChunk.text) := by
  refine ⟨?_, ?_, ?_, ?_, rfl, rfl⟩
  · unfold P002.mode
    by_cases h : (0.45 : ℚ) < t
    · simp [h]
    · simp [h]
  · unfold P002.mode
    norm_num
  · intro h
    simp [P002.systemInstruction, P002.mode, h]
  · intro h
    simp [P002.systemInstruction, P002.mode, not_lt.mpr h]

/-- Witness for the amended C1 at the concrete scores 1/2 (above threshold)
and 0.45 (exactly at threshold). -/
theorem c1_amended_witness :
    P002.mode (1/2) = Mode.GROUNDED
    ∧ P002.systemInstruction (1/2) "C" = P002.groundedInstr "C"
    ∧ P002.mode 0.45 = Mode.GENERAL
    ∧ P002.systemInstruction 0.45 "C" = P002.generalInstr := by
  have h1 := c1_amended_theorem (1/2) "C" []
  have h2 := c1_amended_theorem 0.45 "C" []
  exact ⟨h1.1.mpr (by norm_num), h1.2.2.1 (by norm_num), h1.2.1,
    h2.2.2.2.1 (le_refl _)⟩

/-- C2 counterexample: in part_002, a chat request arriving when the store
is empty does not succeed — it is rejected with a 503 error instead of
being answered in general mode by the completion gateway. -/
theorem c2_counterexample :
    P002.chatStep (some "What is X?") [] (.ok []) (fun _ _ => .ok "hello")
      = .error 503 ⟨"Brain is loading, please wait...", none⟩ := by
  rfl

/-- C2 amended: in server.js, with the completion client configured, a chat
request on an empty store skips retrieval entirely — the completion gateway
is called with the persona message and empty context — and the request
succeeds with the gateway answer; in part_002, an empty store instead
yields a 503 error response (see the counterexample). -/
theorem c2_amended_theorem (emb : Bool) (q : String) (hq : q ≠ "")
    (hist : List Turn) (complete : String → List Turn → String → GRes String)
    (es : GRes (List ScoredChunk)) (a : String)
    (hc : complete SrvJs.personaMsg hist q = .ok a) :
    SrvJs.chatStep ⟨true, emb⟩ (some q) [] es complete hist
      = (.success a, SrvJs.memUpdate hist q a) := by
  simp [SrvJs.chatStep, hq, hc]

/-- Witness for the amended C2 at a concrete empty-store request. -/
theorem c2_amended_witness :
    SrvJs.chatStep ⟨true, true⟩ (some "What is X?") [] (.ok [])
        (fun _ _ _ => .ok "From the gateway") []
      = (.success "From the gateway",
         SrvJs.memUpdate [] "What is X?" "From the gateway") :=
  c2_amended_theorem true "What is X?" (by simp) [] _ (.ok []) "From the gateway" rfl

/-- C6 counterexample: with the embedding gateway unconfigured
(embeddingModel stays null) and a non-empty store, the server.js chat
handler does not fail with 500 — the guard silently skips retrieval and the
request is answered. -/
theorem c6_counterexample :
    SrvJs.chatStep ⟨true, false⟩ (some "hi") [⟨"e1", "A", [1], "t0", none⟩]
        (.err ⟨none, "unreachable", "e"⟩) (fun _ _ _ => .ok "answered") []
      = (.success "answered", SrvJs.memUpdate [] "hi" "answered") := by
  rfl

/-- C6 amended: in server.js, an embedding-gateway call that throws during a
chat request on a non-empty store is caught and the request fails with 500
("AI service error") and no history update; but an unconfigured embedding
gateway does not fail the request — retrieval is silently skipped and the
request is answered with empty context. -/
theorem c6_amended_theorem (q : String) (hq : q ≠ "") (db : List KEntry)
    (hdb : 0 < db.length) (hist : List Turn) (e : JsError)
    (complete : String → List Turn → String → GRes String)
    (es : GRes (List ScoredChunk)) (a : String)
    (hc : complete SrvJs.personaMsg hist q = .ok a) :
    SrvJs.chatStep ⟨true, true⟩ (some q) db (.err e) complete hist
      = (.error 500 ⟨"AI service error", none⟩, hist)
    ∧ SrvJs.chatStep ⟨true, false⟩ (some q) db es complete hist
      = (.success a, SrvJs.memUpdate hist q a) := by
  constructor
  · simp [SrvJs.chatStep, hq, hdb, GRes.map]
  · simp [SrvJs.chatStep, hq, hc]

/-- Witness for the amended C6 at a concrete one-entry store. -/
theorem c6_amended_witness :
    SrvJs.chatStep ⟨true, true⟩ (some "hi") [⟨"e1", "A", [1], "t0", none⟩]
        (.err ⟨none, "boom", "ser"⟩) (fun _ _ _ => .ok "ans") []
      = (.error 500 ⟨"AI service error", none⟩, [])
    ∧ SrvJs.chatStep ⟨true, false⟩ (some "hi") [⟨"e1", "A", [1], "t0", none⟩]
        (.ok []) (fun _ _ _ => .ok "ans") []
      = (.success "ans", SrvJs.memUpdate [] "hi" "ans") :=
  c6_amended_theorem "hi" (by simp) _ (by simp) [] ⟨none, "boom", "ser"⟩
    (fun _ _ _ => .ok "ans") (.ok []) "ans" rfl

/-- C7 counterexample: ingesting a 3-dimensional vector into a store whose
existing entry is 2-dimensional succeeds and stores the entry — the store
afterwards holds entries of differing vector lengths, refuting the claimed
rejection. -/
theorem c7_counterexample :
    SrvJs.ingest [⟨"k1", "alpha", [1, 2], "t0", none⟩] "beta" [1, 2, 3] "k2" "t1"
      = ([⟨"k1", "alpha", [1, 2], "t0", none⟩, ⟨"k2", "beta", [1, 2, 3], "t1", none⟩],
         .saved 2)
    ∧ ((SrvJs.ingest [⟨"k1", "alpha", [1, 2], "t0", none⟩] "beta" [1, 2, 3] "k2" "t1").1.map
        (fun e => e.embedding.length)) = [2, 3] := by
  constructor
  · rfl
  · rfl

/-- C7 amended: the ingest handler performs no dimensionality check at all —
every ingest with non-empty text appends its entry (whatever the vector
length) and reports Saved, so a mismatched entry is stored rather than
rejected. -/
theorem c7_amended_theorem (db : List KEntry) (text : String) (ht : text ≠ "")
    (embedding : List ℚ) (freshId now : String) :
    SrvJs.ingest db text embedding freshId now
      = (db ++ [⟨freshId, text, embedding, now, none⟩], .saved (db.length + 1)) := by
  simp [SrvJs.ingest, ht]

/-- Witness for the amended C7 at a concrete mismatched-dimension ingest. -/
theorem c7_amended_witness :
    SrvJs.ingest [⟨"k1", "alpha", [1, 2], "t0", none⟩] "gamma" [5] "k3" "t2"
      = ([⟨"k1", "alpha", [1, 2], "t0", none⟩] ++ [⟨"k3", "gamma", [5], "t2", none⟩],
         .saved 2) :=
  c7_amended_theorem [⟨"k1", "alpha", [1, 2], "t0", none⟩] "gamma" (by simp) [5] "k3" "t2"

/-- C8 counterexample: in part_000, a missing or malformed snapshot file at
startup does not produce an empty running store — the catch block calls
process.exit(1) and the process aborts. -/
theorem c8_counterexample :
    P000.loadDb .missing = .exited 1 ∧ P000.loadDb .malformed = .exited 1 :=
  ⟨rfl, rfl⟩

/-- C8 amended: server.js and part_002 fail soft — a missing or malformed
snapshot yields an empty in-memory store and the process keeps running —
but part_000 aborts startup with process.exit(1) in exactly those cases. -/
theorem c8_amended_theorem :
    SrvJs.loadDb .missing = [] ∧ SrvJs.loadDb .malformed = []
    ∧ P002.loadDb .missing = .running [] ∧ P002.loadDb .malformed = .running []
    ∧ P000.loadDb .malformed = .exited 1 :=
  ⟨rfl, rfl, rfl, rfl, rfl⟩

/-- Every error outcome of the server.js chat handler carries one of three
fixed static bodies, none of which has a details field. -/
theorem SrvJs.chatStep_error_body (cfg : SrvJs.Config) (question : Option String)
    (db : List KEntry) (es : GRes (List ScoredChunk))
    (complete : String → List Turn → String → GRes String) (hist : List Turn)
    (s : Nat) (b : ErrBody)
    (h : (SrvJs.chatStep cfg question db es complete hist).1 = .error s b) :
    b = ⟨"AI not initialized", none⟩ ∨ b = ⟨"Missing question", none⟩
    ∨ b = ⟨"AI service error", none⟩ := by
  unfold SrvJs.chatStep at h
  split at h
  · cases h
    simp
  · split at h
    · cases h
      simp
    · split at h
      · cases h
        simp
      · split at h
        · cases h
          simp
        · split at h
          · cases h
            simp
          · simp at h

/-- C9 counterexample: the part_002 chat catch block, on an exception with
no recognised status, returns a body whose error string embeds the internal
exception message and whose details field carries the serialized exception
object — internal error detail is exposed. -/
theorem c9_counterexample :
    P002.catchResponse ⟨none, "ECONNREFUSED", "serialized-error-object"⟩
      = .error 500 ⟨"Server Error: ECONNREFUSED", some "serialized-error-object"⟩ := by
  rfl

/-- C9 amended: every error response of the server.js chat handler is one of
three fixed structured bodies with only a static error string and no
details field; but the part_002 chat catch block, for any exception without
a recognised status, returns the exception message inside the error string
and the serialized exception in a details field. -/
theorem c9_amended_theorem (cfg : SrvJs.Config) (question : Option String)
    (db : List KEntry) (es : GRes (List ScoredChunk))
    (complete : String → List Turn → String → GRes String) (hist : List Turn)
    (s : Nat) (b : ErrBody)
    (h : (SrvJs.chatStep cfg question db es complete hist).1 = .error s b)
    (e : JsError) (he : e.status = none) :
    b.details = none
    ∧ (b.error = "AI not initialized" ∨ b.error = "Missing question"
        ∨ b.error = "AI service error")
    ∧ P002.catchResponse e
        = .error 500
            ⟨"Server Error: " ++ (if e.message = "" then "Unknown Error" else e.message),
             some e.serialized⟩ := by
  have hb := SrvJs.chatStep_error_body cfg question db es complete hist s b h
  refine ⟨?_, ?_, ?_⟩
  · rcases hb with rfl | rfl | rfl <;> rfl
  · rcases hb with rfl | rfl | rfl
    · exact Or.inl rfl
    · exact Or.inr (Or.inl rfl)
    · exact Or.inr (Or.inr rfl)
  · simp [P002.catchResponse, he]

/-- Witness for the amended C9 at a concrete uninitialised-client request
and a concrete statusless exception. -/
theorem c9_amended_witness :
    (⟨"AI not initialized", none⟩ : ErrBody).details = none
    ∧ ((⟨"AI not initialized", none⟩ : ErrBody).error = "AI not initialized"
        ∨ (⟨"AI not initialized", none⟩ : ErrBody).error = "Missing question"
        ∨ (⟨"AI not initialized", none⟩ : ErrBody).error = "AI service error")
    ∧ P002.catchResponse ⟨none, "boom", "ser"⟩
        = .error 500
            ⟨"Server Error: " ++ (if "boom" = "" then "Unknown Error" else "boom"),
             some "ser"⟩ :=
  c9_amended_theorem ⟨false, true⟩ none [] (.ok []) (fun _ _ _ => .ok "") []
    500 ⟨"AI not initialized", none⟩ rfl ⟨none, "boom", "ser"⟩ rfl

end Raven
